import Mathlib

/-!
# LearnHub course-progress / goal-reconciliation core: a shallow embedding

This file embeds, in Lean, the goal/milestone aggregation and course-progress
reconciliation core of the LearnHub Django application, and proves (or refutes)
the frozen specification claims about it.

Conventions of the embedding:
* Machine timestamps (`django.utils.timezone.now()`) are modelled by passing the
  current instant as a `Nat` parameter `now`; calendar dates in the streak logic
  are modelled as `Int` day numbers.
* Django model rows become Lean structures holding exactly the fields the
  reconciliation core reads or writes (text fields such as `title`, `slug`,
  `description`, which the core carries through unchanged, are omitted).
* A database write (`save`, `update`) becomes an explicit update of the
  "persisted" copy of the state; code paths that raise a Python exception inside
  a `transaction.atomic` block are modelled with `Except String`, an `Except.error`
  result standing for "exception raised, transaction rolled back".
-/

namespace LearnHub

/-- Goal status codes, from `LearningGoal.STATUS_CHOICES` in `goals/models.py`:
`'N'` Not Started, `'I'` In Progress, `'C'` Completed, `'A'` Archived. -/
inductive GoalStatus where
  | notStarted
  | inProgress
  | completed
  | archived
deriving DecidableEq, Repr

/-- The fields of a `LearningGoal` row (`goals/models.py`) that the
reconciliation core reads or writes: the Kanban `status` (default `'N'`),
`completed_at` (nullable timestamp), and the two denormalized milestone
counters (both default 0).  `title`, `slug`, `description`, `user`,
`created_at` and `due_date` are carried through every operation unchanged and
are omitted from the embedding. -/
structure GoalRec where
  status : GoalStatus := .notStarted
  completed_at : Option Nat := none
  milestone_count : Nat := 0
  milestone_completed_count : Nat := 0
deriving DecidableEq, Repr

/-- The fields of a `GoalMilestone` row (`goals/models.py`) that the core
reads or writes: `is_completed` (default `False`) and the nullable
`completed_at`.  `title` and `created_at` are omitted (never inspected). -/
structure MilestoneRec where
  is_completed : Bool := false
  completed_at : Option Nat := none
deriving DecidableEq, Repr

/-- `LearningGoal.progress_percentage` (`goals/models.py`): 0 when
`milestone_count` is 0, otherwise `int((completed / count) * 100)`.  The Python
float truncation agrees with natural-number division for the values reachable
here. -/
def progress_percentage (g : GoalRec) : Nat :=
  if g.milestone_count = 0 then 0
  else g.milestone_completed_count * 100 / g.milestone_count

/-- The completion-stamping step of `LearningGoal.save` (`goals/models.py`
lines 57-59): if the row is persisted (`self.pk`), the status is `'C'` and
`completed_at` is not yet set, stamp `completed_at = timezone.now()`.
The slug-generation step touches only the omitted `slug` field. -/
def learningGoal_save (now : Nat) (hasPk : Bool) (g : GoalRec) : GoalRec :=
  if hasPk && g.status == .completed && g.completed_at == none then
    { g with completed_at := some now }
  else g

/-- Number of milestone rows with `is_completed = True`: the
`Count('id', filter=Q(is_completed=True))` aggregate of
`LearningGoal.update_progress_counters`. -/
def countCompleted (ms : List MilestoneRec) : Nat :=
  ms.countP (fun m => m.is_completed)

/-- `LearningGoal.update_progress_counters` (`goals/models.py` lines 74-104),
embedded with its exact control flow.  Takes the in-memory goal `g` and the
current list of its milestone rows; returns the updated in-memory goal and
whether `self.save(update_fields=[...])` was executed.  Note the source's
indentation: the `elif self.milestone_completed_count > 0` branch and the
`self.save(...)` call are both nested inside the
`milestone_count > 0 and milestone_count == milestone_completed_count` test, so
the "promote to In Progress" branch is unreachable (it requires
`status == 'C'` and `status == 'N'` simultaneously) and nothing is persisted
unless every milestone is completed. -/
def update_progress_counters (now : Nat) (g : GoalRec) (ms : List MilestoneRec) :
    GoalRec × Bool :=
  let total := ms.length
  let completed := countCompleted ms
  let g1 := { g with milestone_count := total, milestone_completed_count := completed }
  if total > 0 && total == completed then
    let g2 :=
      if g1.status ≠ .completed then { g1 with status := .completed }
      else if g1.milestone_completed_count > 0 && g1.status == .notStarted then
        { g1 with status := .inProgress }
      else g1
    -- `self.save(update_fields=['milestone_count', 'milestone_completed_count',
    -- 'status', 'completed_at'])`: runs `LearningGoal.save` (stamping
    -- `completed_at`) and persists exactly the fields of `GoalRec`.
    let g3 := learningGoal_save now true g2
    (g3, true)
  else (g1, false)

/-- The field-normalisation step of `GoalMilestone.save` (`goals/models.py`
lines 125-130): for a persisted row (`self.pk`), stamp `completed_at` when
completed and not yet stamped, clear it when not completed.  A brand-new row
(`pk` is `None`) is left untouched. -/
def goalMilestone_save_fields (now : Nat) (hasPk : Bool) (m : MilestoneRec) :
    MilestoneRec :=
  if hasPk && m.is_completed && m.completed_at == none then
    { m with completed_at := some now }
  else if hasPk && !m.is_completed then
    { m with completed_at := none }
  else m

/-- The persisted state touched by a milestone toggle: the goal's row and the
goal's milestone rows, as stored. -/
structure GoalDbState where
  goal : GoalRec
  milestones : List MilestoneRec
deriving DecidableEq, Repr

/-- The JSON payload of the `milestone_toggle` view (`goals/views.py`
lines 111-119), or its 404 rejection. -/
inductive ToggleResponse where
  | notFound
  | ok (is_completed : Bool) (progress_percent : Nat)
      (milestone_completed_count : Nat) (goal_status_code : GoalStatus)
deriving DecidableEq, Repr

/-- The `milestone_toggle` view (`goals/views.py` lines 95-124) acting on
milestone index `i` of the goal's milestone list, inside `transaction.atomic`:
look the milestone up (404 when absent), flip `is_completed`, run
`GoalMilestone.save` — which normalises `completed_at`, persists the row and
synchronously calls `goal.update_progress_counters()` on the freshly loaded
parent goal — then `goal.refresh_from_db()` and answer JSON built from the
*persisted* goal row. -/
def milestone_toggle (now : Nat) (s : GoalDbState) (i : Nat) :
    ToggleResponse × GoalDbState :=
  match s.milestones[i]? with
  | none => (.notFound, s)
  | some m =>
    let m1 := { m with is_completed := !m.is_completed }
    let m2 := goalMilestone_save_fields now true m1
    let ms := s.milestones.set i m2
    -- `self.goal.update_progress_counters()` runs on the parent loaded from
    -- the database; it persists the goal row only when it executes its save.
    let gsaved := update_progress_counters now s.goal ms
    let gdb := if gsaved.2 then gsaved.1 else s.goal
    (.ok m2.is_completed (progress_percentage gdb)
        gdb.milestone_completed_count gdb.status,
     { goal := gdb, milestones := ms })

/-- Status-code strings accepted by `goal_update_status`
(`goals/views.py` lines 136-139): the first components of `STATUS_CHOICES`. -/
def statusOfCode (c : String) : Option GoalStatus :=
  if c = "N" then some .notStarted
  else if c = "I" then some .inProgress
  else if c = "C" then some .completed
  else if c = "A" then some .archived
  else none

/-- Outcome of the `goal_update_status` view: the 400 rejection, the JSON
success payload, the 500 error answer of its blanket `except` clause, or —
when the requested status equals the current one — no response at all (the
handler's `try` block falls through without returning). -/
inductive UpdateStatusResponse where
  | badRequest
  | success (new_status_code : GoalStatus)
  | errorResponse (e : String)
  | noResponse
deriving DecidableEq, Repr

/-- The `goal_update_status` view (`goals/views.py` lines 127-166): validate
`new_status` against the status choices (400 on failure); if it differs from
the goal's current status, assign it and branch on the code.  The
`new_status == 'C'` arm executes `goal.completed_at = timezone.now()` (line
150) — but `goals/views.py` never imports `timezone`, so that line raises
`NameError`, the blanket `except Exception` clause answers a 500 error, and
`goal.save` is never reached: the in-memory status assignment dies with the
request and the persisted row is unchanged.  Any other differing code clears
a non-null `completed_at` (after the assignment `goal.status` *is*
`new_status`), persists with `save(update_fields=['status', 'completed_at'])`
— the model `save`'s stamping test is moot here since the status is not `'C'`
— and answers the JSON success payload.  When the status is unchanged the
`if` body is skipped and the function ends without producing any response. -/
def goal_update_status (now : Nat) (g : GoalRec) (new_status : String) :
    UpdateStatusResponse × GoalRec :=
  match statusOfCode new_status with
  | none => (.badRequest, g)
  | some ns =>
    if g.status ≠ ns then
      if ns = .completed then
        (.errorResponse "NameError: name timezone is not defined", g)
      else
        let g1 := { g with status := ns }
        let g2 :=
          if g1.status ≠ .completed && g1.completed_at != none then
            { g1 with completed_at := none }
          else g1
        let g3 := learningGoal_save now true g2
        (.success g3.status, g3)
    else (.noResponse, g)

/-- The fields of a `Course` row (`resources/models.py`) that the
reconciliation core reads: `total_steps` (a `PositiveIntegerField` with
`default=0`) and the category reference (modelled by its id).  All other
resource fields are never inspected by the core. -/
structure Course where
  category : Nat := 0
  total_steps : Nat := 0
deriving DecidableEq, Repr

/-- A `Course` as created by the application: `total_steps` takes the declared
value when one is supplied at creation time and the field default `0`
otherwise (`total_steps = models.PositiveIntegerField(default=0, ...)`). -/
def mkCourse (category : Nat) (declared_steps : Option Nat) : Course :=
  { category := category, total_steps := declared_steps.getD 0 }

/-- The `total_steps` value the specification text ascribes to a course: the
declared step count, "defaults to a fallback constant — 10 — if unset".
This definition follows the spec's words, for comparison with the behaviour
of the source (`mkCourse` / `handle_module_completion`). -/
def specTotalSteps (declared_steps : Option Nat) : Nat :=
  declared_steps.getD 10

/-- The fields of a `CourseProgress` row (`resources/models.py`): the
per-(user, course) enrollment record with `current_step` (default 0),
`completed` (default `False`) and the `last_accessed` auto timestamp. -/
structure CourseProgressRec where
  current_step : Nat := 0
  completed : Bool := false
  last_accessed : Option Nat := none
deriving DecidableEq, Repr

/-- The fields of a `ModuleProgress` row (`resources/models.py`): keyed by
`module_id` within its `CourseProgress`, with `is_completed` (default
`False`), `time_spent` (a duration, embedded in seconds, default 0) and the
nullable `completed_at`. -/
structure ModuleProgressRec where
  module_id : Nat
  is_completed : Bool := false
  time_spent : Nat := 0
  completed_at : Option Nat := none
deriving DecidableEq, Repr

/-- Number of `ModuleProgress` rows with `is_completed=True` for a course
progress: the `user_progress.module_states.filter(is_completed=True).count()`
query of `handle_module_completion`. -/
def completedModuleCount (ms : List ModuleProgressRec) : Nat :=
  ms.countP (fun m => m.is_completed)

/-- The persisted state read and written by `finalize_course_completion`
(`resources/services.py` lines 65-94): the `CourseProgress` row, the owning
user's `LearningGoal` rows, and the profile's completed-resource counter. -/
structure FinalizeState where
  progress : CourseProgressRec
  goals : List GoalRec
  profile_completed_resources : Nat := 0
deriving DecidableEq, Repr

/-- `finalize_course_completion(user_progress)` (`resources/services.py`
lines 65-94), wrapped in `transaction.atomic`.  Step 1 returns unchanged when
`user_progress.completed` is already true.  Otherwise step 2 marks the
progress row completed and touches `last_accessed`, and step 3 runs
`LearningGoal.objects.filter(user=..., category=..., completed=False)
.update(completed=True, status='C')` — but `goals.models.LearningGoal`
declares neither a `category` nor a `completed` field, so the ORM raises
`FieldError` there; the atomic block rolls every write of the call back, which
the embedding renders as `Except.error` with the pre-call state discarded.
Step 4 (the profile capability hook) is never reached. -/
def finalize_course_completion (now : Nat) (s : FinalizeState) :
    Except String FinalizeState :=
  if s.progress.completed then
    Except.ok s
  else
    let _s1 : FinalizeState :=
      { s with progress := { s.progress with completed := true, last_accessed := some now } }
    Except.error "FieldError: cannot resolve keyword category into a LearningGoal field"

/-- The `handle_module_completion` `post_save` receiver
(`resources/signals.py` lines 7-30) for a just-saved `ModuleProgress` row
`instance`: when `instance.is_completed`, read the course's
`total_steps` (the `hasattr(course, 'total_steps')` test is satisfied by every
`Course`, since `total_steps` is a declared model field, so the `else 10`
fallback is dead), count the completed module rows, and when
`completed_count >= total_steps_required` and the progress row is not already
completed, invoke `finalize_course_completion`.  Returns whether the
finalizer was invoked, together with the resulting state. -/
def handle_module_completion (now : Nat) (saved_instance : ModuleProgressRec)
    (course : Course) (module_states : List ModuleProgressRec)
    (s : FinalizeState) : Bool × Except String FinalizeState :=
  if saved_instance.is_completed then
    let total_steps_required := course.total_steps
    let completed_count := completedModuleCount module_states
    if completed_count ≥ total_steps_required && !s.progress.completed then
      (true, finalize_course_completion now s)
    else (false, Except.ok s)
  else (false, Except.ok s)

/-- `enroll_user_in_course(user, course)` (`resources/services.py` lines
7-31), wrapped in `transaction.atomic`.  After fetching the roadmap, it runs
`LearningGoal.objects.create(user=..., title=..., status='I',
content_type=..., object_id=...)` — but `goals.models.LearningGoal` declares
neither a generic `content_type` nor an `object_id` field, so the model
constructor raises `TypeError` before any row is written; the milestone
creation loop is never reached.  The embedding renders the raised exception
as `Except.error`. -/
def enroll_user_in_course (_course : Course) : Except String GoalRec :=
  Except.error "TypeError: LearningGoal got unexpected keyword arguments content_type, object_id"

/-- The per-(user, course) tracking state touched by the `course_enroll`
view: the user's enrollment goals for the course and the unique
`CourseProgress` row, when one exists. -/
structure EnrollDb where
  enrollment_goals : List GoalRec := []
  progress : Option CourseProgressRec := none
deriving DecidableEq, Repr

/-- Outcome of the `course_enroll` view (`resources/views.py` lines 536-567):
the success message for a fresh enrollment, the already-enrolled info message,
or the error message produced by its `except` clause. -/
inductive EnrollOutcome where
  | enrolledNew
  | alreadyEnrolled
  | errorMessage (e : String)
deriving DecidableEq, Repr

/-- The `course_enroll` view (`resources/views.py` lines 536-567): inside
`transaction.atomic`, first call `enroll_user_in_course` (which appends a new
enrollment goal on success), then `CourseProgress.objects.get_or_create(user,
course)`, messaging "already enrolled" when the row existed.  Any exception
rolls the whole block back and is reported through `messages.error`.  Since
`enroll_user_in_course` always raises `TypeError`, the error arm is the one
taken on every call. -/
def course_enroll (course : Course) (db : EnrollDb) : EnrollOutcome × EnrollDb :=
  match enroll_user_in_course course with
  | Except.error e => (.errorMessage e, db)
  | Except.ok goal =>
    let db1 := { db with enrollment_goals := db.enrollment_goals ++ [goal] }
    match db1.progress with
    | some _ => (.alreadyEnrolled, db1)
    | none => (.enrolledNew, { db1 with progress := some {} })

/-- The fields of a `UserLearningStats` row (`resources/models.py` lines
371-385) read or written by `update_streak`: `current_streak`
(default 0) and the nullable `last_learning_date`.  Calendar dates are
embedded as `Int` day numbers, so "one calendar day before `today`" is
`today - 1`. -/
structure UserLearningStatsRec where
  current_streak : Nat := 0
  last_learning_date : Option Int := none
deriving DecidableEq, Repr

/-- The comparison-and-update logic of `UserLearningStats.update_streak`
(`resources/models.py` lines 380-385), with the activity date `today` passed
as a parameter in place of the `timezone.now().date()` read on line 379:
increment the streak when `last_learning_date == today - timedelta(days=1)`,
reset it to 1 when `last_learning_date != today`, leave it alone on a
same-day call, and always set `last_learning_date = today` before saving.
(At runtime line 379 itself raises `AttributeError`, because line 6 of
`resources/models.py` binds `timezone` to `datetime.timezone`, which has no
`now`; see the claim-C4 record.) -/
def update_streak_logic (today : Int) (s : UserLearningStatsRec) :
    UserLearningStatsRec :=
  let s1 :=
    if s.last_learning_date == some (today - 1) then
      { s with current_streak := s.current_streak + 1 }
    else if s.last_learning_date != some today then
      { s with current_streak := 1 }
    else s
  { s1 with last_learning_date := some today }

/-- The persisted state touched by the `update_module_progress` view: the
`ModuleProgress` rows of the requesting user's `CourseProgress`, and the
user's `UserLearningStats` row when one exists. -/
structure ModuleDb where
  modules : List ModuleProgressRec := []
  stats : Option UserLearningStatsRec := none
deriving DecidableEq, Repr

/-- `ModuleProgress.objects.get_or_create(course_progress=..., module_id=...,
user=...)`: return the row keyed by `module_id`, creating (and committing) a
fresh default row when none exists. -/
def get_or_create_module (db : ModuleDb) (mid : Nat) :
    ModuleProgressRec × ModuleDb :=
  match db.modules.find? (fun m => m.module_id == mid) with
  | some m => (m, db)
  | none =>
    let fresh : ModuleProgressRec := { module_id := mid }
    (fresh, { db with modules := db.modules ++ [fresh] })

/-- `mod_state.save()`: persist the (unique per `module_id`) row. -/
def save_module (db : ModuleDb) (row : ModuleProgressRec) : ModuleDb :=
  { db with
    modules := db.modules.map (fun m => if m.module_id == row.module_id then row else m) }

/-- The persisted `ModuleProgress` row for `module_id`, for stating
properties of the view. -/
def lookup_module (db : ModuleDb) (mid : Nat) : Option ModuleProgressRec :=
  db.modules.find? (fun m => m.module_id == mid)

/-- The JSON payload of the `update_module_progress` view, or the 500 error
answer produced by its `except` clause. -/
inductive ModuleReportResponse where
  | success (time_spent : Nat) (is_completed : Bool)
  | errorResponse (e : String)
deriving DecidableEq, Repr

/-- The `update_module_progress` view (`resources/views.py` lines 570-615)
for a parsed report `(module_id, seconds, completed_flag)`: get-or-create the
module row (this create commits immediately — the view has no enclosing
`transaction.atomic`), add `timedelta(seconds=seconds)` to the in-memory
`time_spent`, and, when `completed == 'true'`, mark the row completed and run
the stats block — `UserLearningStats.objects.get_or_create(user=...)` (which
also commits) followed by `stats.update_streak()`, which raises
`AttributeError` (`timezone` is `datetime.timezone`, see `update_streak_logic`;
the subsequent `stats.total_modules_completed` and `stats.total_learning_time`
accesses would fail too, as `UserLearningStats` declares neither field).  The
`except` clause turns the exception into a 500 answer, and `mod_state.save()`
is never reached, so the in-memory time and completion updates are lost.
Without the completed flag, `mod_state.save()` persists the accumulated
time. -/
def update_module_progress (now : Nat) (db : ModuleDb) (module_id : Nat)
    (seconds : Nat) (completed_flag : Bool) :
    ModuleReportResponse × ModuleDb :=
  let rdb := get_or_create_module db module_id
  let row := { rdb.1 with time_spent := rdb.1.time_spent + seconds }
  let db1 := rdb.2
  if completed_flag then
    let _row1 := { row with is_completed := true, completed_at := some now }
    let db2 := { db1 with stats := some (db1.stats.getD {}) }
    (.errorResponse "AttributeError: type object datetime.timezone has no attribute now", db2)
  else
    let db2 := save_module db1 row
    (.success row.time_spent row.is_completed, db2)

/-- The reachable states of a single `GoalMilestone` row.  Creation sites in
the repository (`GoalMilestone.objects.create(..., is_completed=False)` in
`resources/services.py` and the title-only `GoalMilestoneForm` in
`goals/forms.py`) both insert with the field defaults `is_completed=False`,
`completed_at=None`; the insert runs `GoalMilestone.save` with `pk` still
unset.  A persisted row is then mutated only through `GoalMilestone.save`:
by the flip of `milestone_toggle` (`goals/views.py` line 103), or by
`update_learning_progress` (`resources/services.py` lines 44-49), which sets
`is_completed=True` and stamps `completed_at` on a not-yet-completed row. -/
inductive MilestoneReachable : MilestoneRec → Prop where
  | created :
      MilestoneReachable (goalMilestone_save_fields now false {})
  | toggled (m : MilestoneRec) (now : Nat) :
      MilestoneReachable m →
      MilestoneReachable
        (goalMilestone_save_fields now true { m with is_completed := !m.is_completed })
  | serviceCompleted (m : MilestoneRec) (now : Nat) :
      MilestoneReachable m → m.is_completed = false →
      MilestoneReachable
        (goalMilestone_save_fields now true
          { m with is_completed := true, completed_at := some now })

/-! ## Helper lemmas -/

/-- Setting a list position to the value it already holds is the identity. -/
theorem set_getElem_eq_self {α : Type} (l : List α) (i : Nat) (a : α)
    (h : l[i]? = some a) : l.set i a = l := by
  induction l generalizing i with
  | nil => simp at h
  | cons hd tl ih =>
    cases i with
    | zero => simp_all
    | succ n => simp_all

/-- A goal's milestone list with a not-completed member never counts as fully
completed. -/
theorem countCompleted_ne_length (ms : List MilestoneRec) (m : MilestoneRec)
    (hm : m ∈ ms) (hc : m.is_completed = false) :
    countCompleted ms ≠ ms.length := by
  intro h
  have := List.countP_eq_length.mp h m hm
  rw [hc] at this
  exact Bool.false_ne_true this

/-- When not every milestone is completed, `update_progress_counters` only
refreshes the two in-memory counters and performs no save. -/
theorem update_progress_counters_no_save (now : Nat) (g : GoalRec)
    (ms : List MilestoneRec) (h : countCompleted ms ≠ ms.length) :
    update_progress_counters now g ms =
      ({ g with milestone_count := ms.length,
                milestone_completed_count := countCompleted ms }, false) := by
  have hb : (ms.length == countCompleted ms) = false := by
    rw [beq_eq_false_iff_ne]
    exact fun hx => h hx.symm
  simp [update_progress_counters, hb]

/-- The counters computed by `update_progress_counters` are always the total
and completed milestone counts, whichever branch runs. -/
theorem update_progress_counters_counts (now : Nat) (g : GoalRec)
    (ms : List MilestoneRec) :
    (update_progress_counters now g ms).1.milestone_count = ms.length ∧
    (update_progress_counters now g ms).1.milestone_completed_count =
      countCompleted ms := by
  by_cases h : countCompleted ms = ms.length
  · simp only [update_progress_counters, learningGoal_save]
    split
    · constructor <;> (split <;> split <;> (try split) <;> simp)
    · simp
  · rw [update_progress_counters_no_save now g ms h]
    exact ⟨rfl, rfl⟩

/-! ## Claims -/

/-- Claim C1 (code bug): for a NotStarted goal with 3 milestones of which the
toggle completes exactly 1, the toggle call leaves the goal's status
`NotStarted`, persists nothing (the goal row is unchanged), and the JSON
answer reports the stale persisted counters — status NotStarted and progress
percentage 0 — not the InProgress / 33 the specification promises: the
promote-to-InProgress branch and the save of `update_progress_counters` are
nested inside the all-milestones-completed test. -/
theorem c1_partial_completion_not_promoted :
    milestone_toggle 7 { goal := {}, milestones := [{}, {}, {}] } 0 =
      (ToggleResponse.ok true 0 0 GoalStatus.notStarted,
       { goal := {},
         milestones := [{ is_completed := true, completed_at := some 7 }, {}, {}] }) ∧
    (milestone_toggle 7 { goal := {}, milestones := [{}, {}, {}] } 0).1 ≠
      ToggleResponse.ok true 33 1 GoalStatus.inProgress := by
  exact ⟨rfl, by decide⟩

/-- Claim C2, counterexample: for a course whose step count was never
declared, the claim predicts a fallback `total_steps` of 10 — so one
completed module should not trigger finalization — yet the receiver invokes
`finalize_course_completion` at once, because `total_steps` is a declared
field with default 0 and the `else 10` fallback is dead. -/
theorem c2_dead_fallback_counterexample :
    (handle_module_completion 9 { module_id := 1, is_completed := true }
        (mkCourse 0 none) [{ module_id := 1, is_completed := true }]
        { progress := {}, goals := [] }).1 = true ∧
    ¬ (completedModuleCount [({ module_id := 1, is_completed := true } : ModuleProgressRec)]
        ≥ specTotalSteps none) := by
  exact ⟨rfl, by decide⟩

/-- Claim C2 (amended): on every save of a completed `ModuleProgress`, the
receiver invokes `finalize_course_completion` exactly when the completed
module count reaches the course's `total_steps` field (which defaults to 0
when no step count was declared; the `hasattr`-guarded fallback of 10 is
unreachable) and the progress row is not already completed; in particular,
with `total_steps = 2`, the first completed module leaves the progress row
untouched and the second invokes the finalizer. -/
theorem c2_invocation_matches_declared_total_steps :
    (∀ (now : Nat) (inst : ModuleProgressRec) (course : Course)
        (states : List ModuleProgressRec) (s : FinalizeState),
        (handle_module_completion now inst course states s).1 =
          (inst.is_completed &&
            decide (completedModuleCount states ≥ course.total_steps) &&
            !s.progress.completed)) ∧
    handle_module_completion 3 { module_id := 1, is_completed := true }
        (mkCourse 0 (some 2)) [{ module_id := 1, is_completed := true }]
        { progress := {}, goals := [] } =
      (false, Except.ok { progress := {}, goals := [] }) ∧
    (handle_module_completion 4 { module_id := 2, is_completed := true }
        (mkCourse 0 (some 2))
        [{ module_id := 1, is_completed := true }, { module_id := 2, is_completed := true }]
        { progress := {}, goals := [] }).1 = true := by
  refine ⟨?_, rfl, rfl⟩
  intro now inst course states s
  by_cases h1 : inst.is_completed <;>
    by_cases h2 : completedModuleCount states ≥ course.total_steps <;>
      by_cases h3 : s.progress.completed <;>
        simp [handle_module_completion, h1, h2, h3]

/-- Claim C3: `finalize_course_completion` is idempotent — on a
`CourseProgress` already marked completed it returns at its redundancy guard,
changing no state (so a second call after a first one produces the identical
final state and the category-wide bulk goal update is not applied again). -/
theorem c3_finalize_second_call_noop (now : Nat) (s : FinalizeState)
    (h : s.progress.completed = true) :
    finalize_course_completion now s = Except.ok s := by
  simp [finalize_course_completion, h]

/-- Claim C3, witness: a concrete already-completed course progress is left
exactly as it was. -/
theorem c3_finalize_second_call_noop_witness :
    finalize_course_completion 4
        { progress := { completed := true }, goals := [{}] } =
      Except.ok { progress := { completed := true }, goals := [{}] } :=
  c3_finalize_second_call_noop 4
    { progress := { completed := true }, goals := [{}] } rfl

/-- Claim C4 (code bug): the comparison-and-update logic of `update_streak`
(embedded with the activity date as a parameter, in place of the
`timezone.now().date()` read that raises `AttributeError` at runtime) always
sets `last_learning_date` to today and is idempotent on a same-day retry; on
concrete inputs it increments the streak by exactly 1 from yesterday's date,
resets it to 1 from an older date or from no date, and leaves it unchanged on
a same-day call. -/
theorem c4_update_streak_logic_behaviour :
    (∀ (s : UserLearningStatsRec) (today : Int),
        (update_streak_logic today s).last_learning_date = some today ∧
        update_streak_logic today (update_streak_logic today s) =
          update_streak_logic today s) ∧
    update_streak_logic 5 { current_streak := 3, last_learning_date := some 4 } =
      { current_streak := 4, last_learning_date := some 5 } ∧
    update_streak_logic 5 { current_streak := 3, last_learning_date := some 2 } =
      { current_streak := 1, last_learning_date := some 5 } ∧
    update_streak_logic 5 { current_streak := 0, last_learning_date := none } =
      { current_streak := 1, last_learning_date := some 5 } ∧
    update_streak_logic 5 { current_streak := 3, last_learning_date := some 5 } =
      { current_streak := 3, last_learning_date := some 5 } := by
  refine ⟨?_, by decide, by decide, by decide, by decide⟩
  intro s today
  have hne : today ≠ today - 1 := by omega
  constructor
  · simp [update_streak_logic]
  · simp [update_streak_logic, hne]

/-- Claim C6 (code bug): enrolling — including re-enrolling with an existing
`CourseProgress` row — never reaches the idempotent `get_or_create` path: the
unconditional `enroll_user_in_course` call raises `TypeError` first, the
transaction rolls back leaving the state unchanged, and the view answers with
an error message; the already-enrolled no-op response is unreachable. -/
theorem c6_enroll_type_error :
    course_enroll (mkCourse 0 (some 2))
        { enrollment_goals := [{}], progress := some {} } =
      (EnrollOutcome.errorMessage
        "TypeError: LearningGoal got unexpected keyword arguments content_type, object_id",
       { enrollment_goals := [{}], progress := some {} }) ∧
    ∀ (c : Course) (db : EnrollDb),
      (course_enroll c db).1 ≠ EnrollOutcome.alreadyEnrolled := by
  refine ⟨rfl, ?_⟩
  intro c db
  simp [course_enroll, enroll_user_in_course]

/-- Claim C7 (code bug): a plain progress report accumulates
`time_spent += seconds_watched`, so a duplicated `seconds_watched = 300`
report leaves 600, not 300 — but a report carrying the completed flag crashes
in the stats block (wrong `timezone` import; nonexistent stats fields) before
`mod_state.save()`, answering a 500 error and persisting none of the reported
time. -/
theorem c7_duplicate_report_double_counts :
    (update_module_progress 5 {} 7 300 false).1 =
      ModuleReportResponse.success 300 false ∧
    (update_module_progress 6 (update_module_progress 5 {} 7 300 false).2
        7 300 false).1 = ModuleReportResponse.success 600 false ∧
    lookup_module (update_module_progress 6
        (update_module_progress 5 {} 7 300 false).2 7 300 false).2 7 =
      some { module_id := 7, time_spent := 600 } ∧
    (update_module_progress 5 {} 7 300 true).1 =
      ModuleReportResponse.errorResponse
        "AttributeError: type object datetime.timezone has no attribute now" ∧
    lookup_module (update_module_progress 5 {} 7 300 true).2 7 =
      some { module_id := 7, time_spent := 0 } :=
  ⟨rfl, rfl, rfl, rfl, rfl⟩

/-- Claim C5, counterexample: on a goal whose only milestone is toggled
complete and then uncomplete, the second toggle restores the milestone row
(`completed_at` back to null) but not the goal: the first toggle persisted
status Completed with counters (1, 1) and a stamped `completed_at`, and the
partial-completion recompute of the second toggle persists nothing, so the
goal row does not return to its pre-toggle NotStarted / (0, 0) values. -/
theorem c5_double_toggle_counterexample :
    ((milestone_toggle 9 (milestone_toggle 7
        { goal := {}, milestones := [{}] } 0).2 0).2).goal ≠ ({} : GoalRec) ∧
    ((milestone_toggle 9 (milestone_toggle 7
        { goal := {}, milestones := [{}] } 0).2 0).2).goal =
      { status := GoalStatus.completed, completed_at := some 7,
        milestone_count := 1, milestone_completed_count := 1 } ∧
    ((milestone_toggle 9 (milestone_toggle 7
        { goal := {}, milestones := [{}] } 0).2 0).2).milestones = [{}] := by
  decide

/-- Claim C5 (amended): toggling a persisted, not-completed milestone twice
(complete then uncomplete) restores the milestone's `completed_at` to null
and, provided the goal keeps at least one other incomplete milestone (so
neither recompute takes the all-completed persisting branch), restores the
entire persisted state — milestone rows and the goal's counters and status —
to its pre-toggle value, the goal row being untouched by both calls; when
instead the first toggle completes every milestone, the goal is promoted to
Completed and persisted so, and the second toggle does not undo it. -/
theorem c5_double_toggle_restores (now1 now2 : Nat) (s : GoalDbState)
    (i j : Nat) (m mj : MilestoneRec)
    (hm : s.milestones[i]? = some m)
    (hmc : m.is_completed = false)
    (hma : m.completed_at = none)
    (hij : j ≠ i)
    (hj : s.milestones[j]? = some mj)
    (hjc : mj.is_completed = false) :
    (milestone_toggle now1 s i).2.goal = s.goal ∧
    (milestone_toggle now2 (milestone_toggle now1 s i).2 i).2 = s := by
  obtain ⟨sg, sms⟩ := s
  simp only at hm hj ⊢
  have hi : i < sms.length := by
    by_contra hlt
    push_neg at hlt
    rw [List.getElem?_eq_none hlt] at hm
    cases hm
  have hmeq : m = ({} : MilestoneRec) := by
    cases m
    simp_all
  subst hmeq
  have hset1 : (sms.set i { is_completed := true, completed_at := some now1 })[j]? =
      some mj := by
    rw [List.getElem?_set_ne (Ne.symm hij)]
    exact hj
  have hne1 : countCompleted
        (sms.set i { is_completed := true, completed_at := some now1 }) ≠
      (sms.set i { is_completed := true, completed_at := some now1 }).length :=
    countCompleted_ne_length _ mj (List.getElem?_mem hset1) hjc
  have ht1 : (milestone_toggle now1 ⟨sg, sms⟩ i).2 =
      ⟨sg, sms.set i { is_completed := true, completed_at := some now1 }⟩ := by
    simp only [milestone_toggle, hm, goalMilestone_save_fields]
    simp
    rw [update_progress_counters_no_save now1 sg _ hne1]
    simp
  have hget2 : (sms.set i { is_completed := true, completed_at := some now1 })[i]? =
      some { is_completed := true, completed_at := some now1 } :=
    List.getElem?_set_eq_of_lt _ hi
  have hsetid : sms.set i ({} : MilestoneRec) = sms :=
    set_getElem_eq_self sms i {} hm
  have hne2 : countCompleted sms ≠ sms.length :=
    countCompleted_ne_length _ {} (List.getElem?_mem hm) rfl
  refine ⟨by rw [ht1], ?_⟩
  rw [ht1]
  simp only [milestone_toggle, hget2, goalMilestone_save_fields]
  simp
  rw [hsetid, update_progress_counters_no_save now2 sg sms hne2]
  simp

/-- Claim C5 amended, witness: on a goal with three fresh milestones, toggling
the first twice leaves the goal row untouched after the first call and
restores the whole persisted state after the second. -/
theorem c5_double_toggle_restores_witness :
    (milestone_toggle 7 { goal := {}, milestones := [{}, {}, {}] } 0).2.goal =
      ({ goal := {}, milestones := [{}, {}, {}] } : GoalDbState).goal ∧
    (milestone_toggle 9
        (milestone_toggle 7 { goal := {}, milestones := [{}, {}, {}] } 0).2 0).2 =
      { goal := {}, milestones := [{}, {}, {}] } :=
  c5_double_toggle_restores 7 9 { goal := {}, milestones := [{}, {}, {}] } 0 1 {} {}
    rfl rfl rfl (by decide) rfl rfl

/-- Claim C8: every reachable state of a milestone — as created through any
of the repository's creation sites, and after any `GoalMilestone.save` issued
by the toggle view or the learning-progress service — satisfies the
invariant that `completed_at` is non-null exactly when `is_completed` is
true. -/
theorem c8_milestone_completed_at_iff (m : MilestoneRec)
    (h : MilestoneReachable m) :
    m.completed_at ≠ none ↔ m.is_completed = true := by
  induction h with
  | created => simp [goalMilestone_save_fields]
  | toggled m now _ ih =>
    cases hc : m.is_completed with
    | false =>
      have hnone : m.completed_at = none := by
        by_contra hx
        rw [ih.mp hx] at hc
        cases hc
      simp [goalMilestone_save_fields, hc, hnone]
    | true =>
      simp [goalMilestone_save_fields, hc]
  | serviceCompleted m now _ hfalse ih =>
    simp [goalMilestone_save_fields]

/-- Claim C8, witness: the invariant holds of a freshly created milestone. -/
theorem c8_milestone_completed_at_iff_witness :
    (goalMilestone_save_fields 0 false {}).completed_at ≠ none ↔
      (goalMilestone_save_fields 0 false {}).is_completed = true :=
  c8_milestone_completed_at_iff _ MilestoneReachable.created

/-- Claim C9: after any run of `update_progress_counters`,
`milestone_completed_count ≤ milestone_count` holds on the in-memory goal,
and on the persisted goal row — the row freshly written when the recompute
saves, the prior row (assumed to satisfy the invariant, as every row the
program writes does) when it does not. -/
theorem c9_counters_bounded (now : Nat) (g db : GoalRec)
    (ms : List MilestoneRec)
    (hdb : db.milestone_completed_count ≤ db.milestone_count) :
    (update_progress_counters now g ms).1.milestone_completed_count ≤
      (update_progress_counters now g ms).1.milestone_count ∧
    ((if (update_progress_counters now g ms).2 then
        (update_progress_counters now g ms).1 else db).milestone_completed_count ≤
      (if (update_progress_counters now g ms).2 then
        (update_progress_counters now g ms).1 else db).milestone_count) := by
  obtain ⟨h1, h2⟩ := update_progress_counters_counts now g ms
  have hle : countCompleted ms ≤ ms.length := List.countP_le_length _
  constructor
  · rw [h1, h2]
    exact hle
  · by_cases hs : (update_progress_counters now g ms).2 = true <;>
      simp [hs, h1, h2, hle, hdb]

/-- Claim C9, witness: the bound holds concretely for a goal with one
incomplete milestone and a default persisted row. -/
theorem c9_counters_bounded_witness :
    (update_progress_counters 0 {} [{}]).1.milestone_completed_count ≤
      (update_progress_counters 0 {} [{}]).1.milestone_count ∧
    ((if (update_progress_counters 0 {} [{}]).2 then
        (update_progress_counters 0 {} [{}]).1
      else ({} : GoalRec)).milestone_completed_count ≤
      (if (update_progress_counters 0 {} [{}]).2 then
        (update_progress_counters 0 {} [{}]).1
      else ({} : GoalRec)).milestone_count) :=
  c9_counters_bounded 0 {} {} [{}] (by decide)

/-- Claim C10: for a `goal_update_status` request carrying a valid status
code equal to the goal's current status, the view mutates nothing and
produces no response at all (the handler's `try` block falls through without
returning); and the JSON success payload with the updated status is produced
only when the status actually changes — whenever the success payload is
answered, the requested status differed from the current one and the payload
carries it.  (A change to `'C'` instead answers the 500 `NameError` response
with no save; no success payload is produced there either.) -/
theorem c10_same_status_falls_through (now : Nat) (g : GoalRec) (c : String)
    (ns : GoalStatus) (h : statusOfCode c = some ns) :
    (ns = g.status →
      goal_update_status now g c = (UpdateStatusResponse.noResponse, g)) ∧
    (∀ (ns2 : GoalStatus) (g2 : GoalRec),
      goal_update_status now g c = (UpdateStatusResponse.success ns2, g2) →
      ns ≠ g.status ∧ ns2 = ns ∧ g2.status = ns) := by
  constructor
  · intro he
    simp [goal_update_status, h, ← he]
  · intro ns2 g2 hres
    simp only [goal_update_status, h] at hres
    split at hres
    next hgs =>
      split at hres
      next => cases hres
      next hc =>
        rw [Prod.mk.injEq] at hres
        obtain ⟨h1, h2⟩ := hres
        rw [UpdateStatusResponse.success.injEq] at h1
        have hstat : ∀ (x : GoalRec), (learningGoal_save now true x).status =
            x.status := by
          intro x
          unfold learningGoal_save
          split <;> rfl
        rw [hstat, apply_ite GoalRec.status] at h1
        have h1n : ns = ns2 := by
          rw [← h1]
          split <;> rfl
        refine ⟨fun hx => hgs hx.symm, h1n.symm, ?_⟩
        rw [← h2, hstat, apply_ite GoalRec.status]
        split <;> rfl
    next => cases hres

/-- Claim C10, witness: requesting NotStarted on a NotStarted goal mutates
nothing and produces no response, and any success payload for that request
would imply the status changed. -/
theorem c10_same_status_falls_through_witness :
    (GoalStatus.notStarted = ({} : GoalRec).status →
      goal_update_status 3 {} "N" = (UpdateStatusResponse.noResponse, {})) ∧
    (∀ (ns2 : GoalStatus) (g2 : GoalRec),
      goal_update_status 3 {} "N" = (UpdateStatusResponse.success ns2, g2) →
      GoalStatus.notStarted ≠ ({} : GoalRec).status ∧
      ns2 = GoalStatus.notStarted ∧ g2.status = GoalStatus.notStarted) :=
  c10_same_status_falls_through 3 {} "N" GoalStatus.notStarted rfl

end LearnHub
